import Mathlib

/-!
Shallow embedding of the thermocalc repository (Fe-C / Fe-Cr-C phase-diagram
scripts).  Python floats are modelled as exact rationals `ℚ`; Python dicts of
element → value are modelled as association lists `List (α × ℚ)` together with
a total molar-mass function; fallible external calls are modelled with
`Except`.  Each definition is translated from the corresponding function in
`src/`.
-/

namespace Thermocalc

/-- `lever_rule` from `src/utils.py` (lines 41-64): if the two bounding
compositions coincide, return `(0, 0)`; otherwise
`fraction_right = (overall_comp - left_comp) / (right_comp - left_comp)` and
`fraction_left = 1 - fraction_right`, returned as
`(fraction_left, fraction_right)`. -/
def lever_rule (overall_comp left_comp right_comp : ℚ) : ℚ × ℚ :=
  if right_comp = left_comp then (0, 0)
  else
    let fraction_right := (overall_comp - left_comp) / (right_comp - left_comp)
    let fraction_left := 1 - fraction_right
    (fraction_left, fraction_right)

/-- `wt_to_mole_fraction` from `src/utils.py` (lines 89-106): divide each
weight fraction by the element's molar mass to get moles, then normalise by
the total moles.  The Python dict is modelled as an association list and the
molar-mass dict as a total function on element keys. -/
def wt_to_mole_fraction {α : Type} (wt_fractions : List (α × ℚ))
    (molar_masses : α → ℚ) : List (α × ℚ) :=
  let moles := wt_fractions.map fun p => (p.1, p.2 / molar_masses p.1)
  let total_moles := (moles.map Prod.snd).sum
  moles.map fun p => (p.1, p.2 / total_moles)

/-- `mole_to_wt_fraction` from `src/utils.py` (lines 109-126): multiply each
mole fraction by the element's molar mass to get weights, then normalise by
the total weight. -/
def mole_to_wt_fraction {α : Type} (mole_fractions : List (α × ℚ))
    (molar_masses : α → ℚ) : List (α × ℚ) :=
  let weights := mole_fractions.map fun p => (p.1, p.2 * molar_masses p.1)
  let total_weight := (weights.map Prod.snd).sum
  weights.map fun p => (p.1, p.2 / total_weight)

/-- Total moles of a composition, the intermediate `total_moles` of
`wt_to_mole_fraction`. -/
def total_moles {α : Type} (wt_fractions : List (α × ℚ)) (molar_masses : α → ℚ) : ℚ :=
  (wt_fractions.map fun p => p.2 / molar_masses p.1).sum

/-- Total weight of a composition, the intermediate `total_weight` of
`mole_to_wt_fraction`. -/
def total_weight {α : Type} (mole_fractions : List (α × ℚ)) (molar_masses : α → ℚ) : ℚ :=
  (mole_fractions.map fun p => p.2 * molar_masses p.1).sum

/-- The model function `quadratic` defined inside `quadratic_fit` in
`src/utils.py` (lines 82-83): `a * x**2 + b * x + c`. -/
def quadratic (x a b c : ℚ) : ℚ := a * x ^ 2 + b * x + c

/-- Sum of squared residuals of the quadratic model over the data points,
the objective minimised by the curve-fitting call in `quadratic_fit`
(`src/utils.py` lines 67-86). -/
def sse (data : List (ℚ × ℚ)) (a b c : ℚ) : ℚ :=
  (data.map fun p => (quadratic p.1 a b c - p.2) ^ 2).sum

/-- Modelled from the spec: `quadratic_fit` delegates to scipy's
`curve_fit`, external library code described by the spec as "a standard
nonlinear curve-fitting routine" performing a "least-squares fit of a
degree-2 polynomial" (spec 4.2).  Its contract is modelled as returning a
coefficient triple minimising the sum of squared residuals `sse`. -/
def IsQuadraticFit (data : List (ℚ × ℚ)) (t : ℚ × ℚ × ℚ) : Prop :=
  ∀ a b c : ℚ, sse data t.1 t.2.1 t.2.2 ≤ sse data a b c

/-- Result of one call to pycalphad's `equilibrium`, abstracted to the data
the scripts extract from it: the per-vertex phase names (`eq.Phase`) paired
with their amounts (`eq.NP`).  The solver is external, so it is a parameter
of each embedded procedure; a raised exception is an `Except.error`. -/
abbrev SolverResult := List (String × ℚ)

/-- The wt%-to-mole-fraction conversion done inline before each solver call
in `src/part_b_stainless_steel.py` (lines 159-176 and 291-304); returns
`(x_Cr, x_C)`. -/
def mole_fracs_cr_c (cr_pct c_pct : ℚ) : ℚ × ℚ :=
  let m_Fe : ℚ := 55.845
  let m_Cr : ℚ := 51.996
  let m_C : ℚ := 12.011
  let w_C := c_pct / 100
  let w_Cr := cr_pct / 100
  let w_Fe := 1 - w_C - w_Cr
  let n_Fe := w_Fe / m_Fe
  let n_Cr := w_Cr / m_Cr
  let n_C := w_C / m_C
  let n_total := n_Fe + n_Cr + n_C
  (n_Cr / n_total, n_C / n_total)

/-- The phase-name extraction in both try blocks of
`src/part_b_stainless_steel.py` (lines 187-194 and 319-335): keep the names
that are nonempty and whose amount exceeds `1e-6`. -/
def significant_phase_names (res : SolverResult) : List String :=
  (res.filter fun p => p.1 ≠ "" ∧ 1 / 1000000 < p.2).map Prod.fst

/-- A row of the B1 output table `outputs/B1_phase_diagram_data.csv`. -/
structure B1Row where
  T_K : ℚ
  C_wt : ℚ
  phases : String

/-- One iteration of the B1 grid loop in `plot_binary_at_fixed_cr`
(`src/part_b_stainless_steel.py` lines 157-208): convert the composition and
run the try block at line 178.  The try block contains two fallible steps:
the solver call (lines 179-184, returning the raw equilibrium dataset `ε`)
and the result extraction `eq.Phase.values.squeeze()` /
`eq.NP.values.squeeze()` (lines 186-189); an exception raised by either is
caught by the broad `except` at line 202 and recorded as the sentinel
`ERROR`.  On success the significant phase names are joined with `+`
(`NONE` when there are none). -/
def b1_row {ε : Type} (solver : ℚ → ℚ → ℚ → Except String ε)
    (extract : ε → Except String SolverResult)
    (cr_content T c_wt : ℚ) : B1Row :=
  let x := mole_fracs_cr_c cr_content c_wt
  match solver T x.1 x.2 with
  | Except.error _ => { T_K := T, C_wt := c_wt, phases := "ERROR" }
  | Except.ok eq =>
      match extract eq with
      | Except.error _ => { T_K := T, C_wt := c_wt, phases := "ERROR" }
      | Except.ok res =>
          let phase_names := significant_phase_names res
          { T_K := T, C_wt := c_wt,
            phases := if phase_names = [] then "NONE"
                      else String.intercalate "+" phase_names }

/-- The carbon grid of the B1 loop (wt% C values). -/
def b1_c_grid : List ℚ := [0, 0.5, 1, 1.5, 2, 2.5, 3, 3.5, 4, 4.5, 5]

/-- The temperature grid of the B1 loop (K). -/
def b1_T_grid : List ℚ :=
  [1000, 1100, 1200, 1300, 1350, 1400, 1500, 1525, 1600, 1700, 1800]

/-- The full B1 results table built by `plot_binary_at_fixed_cr`: one row per
(carbon, temperature) grid point. -/
def plot_binary_at_fixed_cr {ε : Type} (solver : ℚ → ℚ → ℚ → Except String ε)
    (extract : ε → Except String SolverResult) (cr_content : ℚ) : List B1Row :=
  b1_c_grid.flatMap fun c_wt =>
    b1_T_grid.map fun T => b1_row solver extract cr_content T c_wt

/-- A row of the B2 output table `outputs/B2_ternary_compositions.csv`. -/
structure B2Row where
  Composition : String
  Phases : String
  Count : ℕ

/-- The inner bare try/except of `plot_ternary_diagram`
(`src/part_b_stainless_steel.py` lines 330-335): for one significant phase
at vertex `i`, attempt `eq.X.isel(vertex=i).values.squeeze()`; both the
success branch and the bare `except` branch append the same string
`f"{phase_name}"`, so any failure here is swallowed silently and the
appended value is the phase name either way. -/
def b2_inner_xvals {ε : Type} (xvals : ε → ℕ → Except String Unit)
    (eq : ε) (i : ℕ) (phase_name : String) : String :=
  match xvals eq i with
  | Except.ok _ => phase_name
  | Except.error _ => phase_name

/-- One iteration of the composition loop in `plot_ternary_diagram`
(`src/part_b_stainless_steel.py` lines 288-356): convert the composition and
run the try block at line 306.  The try block contains the solver call
(lines 307-312) and the result extraction `eq.Phase.values.squeeze()` /
`eq.NP.values.squeeze()` (lines 319-320); an exception raised by either is
caught by the broad `except` at line 349 and recorded as the sentinel
`Calculation error - use phase diagram` with count `0`.  On success the
per-phase loop also builds `phase_compositions` through the inner bare
try/except (`b2_inner_xvals`, lines 326-335) — a list the function never
uses — and the row joins the significant phase names with `, `
(`Single phase` when there are none). -/
def b2_row {ε : Type} (solver : ℚ → ℚ → ℚ → Except String ε)
    (extract : ε → Except String SolverResult)
    (xvals : ε → ℕ → Except String Unit)
    (temperature : ℚ) (name : String) (cr c : ℚ) : B2Row :=
  let x := mole_fracs_cr_c cr c
  match solver temperature x.1 x.2 with
  | Except.error _ =>
      { Composition := name,
        Phases := "Calculation error - use phase diagram",
        Count := 0 }
  | Except.ok eq =>
      match extract eq with
      | Except.error _ =>
          { Composition := name,
            Phases := "Calculation error - use phase diagram",
            Count := 0 }
      | Except.ok res =>
          let phase_names := significant_phase_names res
          let _phase_compositions :=
            (res.enum.filter fun q => q.2.1 ≠ "" ∧ 1 / 1000000 < q.2.2).map
              fun q => b2_inner_xvals xvals eq q.1 q.2.1
          { Composition := name,
            Phases := if phase_names = [] then "Single phase"
                      else String.intercalate ", " phase_names,
            Count := phase_names.length }

/-- The four specific compositions analysed by `plot_ternary_diagram`
(name, wt% Cr, wt% C). -/
def b2_compositions : List (String × ℚ × ℚ) :=
  [("Fe-15.0Cr-0.01C", 15, 0.01), ("Fe-15.0Cr-0.70C", 15, 0.70),
   ("Fe-20.0Cr-0.20C", 20, 0.20), ("Fe-15.0Cr-3.0C", 15, 3)]

/-- The full B2 results table built by `plot_ternary_diagram`. -/
def plot_ternary_diagram {ε : Type} (solver : ℚ → ℚ → ℚ → Except String ε)
    (extract : ε → Except String SolverResult)
    (xvals : ε → ℕ → Except String Unit) (temperature : ℚ) : List B2Row :=
  b2_compositions.map fun t => b2_row solver extract xvals temperature t.1 t.2.1 t.2.2

/-- The A1 equilibrium call in `plot_phase_diagram_a1`
(`src/part_a_carbon_steel.py` lines 131-135): it has no surrounding
try/except, so a solver exception propagates to the caller unchanged; on
success the equilibrium result is used and returned. -/
def plot_phase_diagram_a1 (solver : Except String SolverResult) :
    Except String SolverResult :=
  match solver with
  | Except.ok eq => Except.ok eq
  | Except.error e => Except.error e

/-- The two analysis parts offered by the `run_all.py` menu. -/
inductive ScriptPart where
  | partA : ScriptPart
  | partB : ScriptPart

/-- Observable outcome of one run of `main` in `src/run_all.py`: which parts
were executed, in order, and the process exit status. -/
structure MenuOutcome where
  parts_run : List ScriptPart
  exit_code : ℕ

/-- The menu dispatch of `main` in `src/run_all.py` (lines 62-106): choice
`1` runs part A, `2` runs part B, `3` runs part A then part B, `4` exits with
status 0, anything else reports an invalid choice and exits with status 1.
Choices 1-3 fall through to the end of `main`, terminating with status 0. -/
def main_menu (choice : String) : MenuOutcome :=
  if choice = "1" then { parts_run := [ScriptPart.partA], exit_code := 0 }
  else if choice = "2" then { parts_run := [ScriptPart.partB], exit_code := 0 }
  else if choice = "3" then
    { parts_run := [ScriptPart.partA, ScriptPart.partB], exit_code := 0 }
  else if choice = "4" then { parts_run := [], exit_code := 0 }
  else { parts_run := [], exit_code := 1 }

/-- Python's `str.strip()` with no argument: remove whitespace from both
ends of the string. -/
def strip (s : String) : String :=
  ⟨(((s.data.dropWhile Char.isWhitespace).reverse).dropWhile Char.isWhitespace).reverse⟩

/-- `main` reads one line from stdin and strips surrounding whitespace
before dispatching: `choice = input("...").strip()` (line 68). -/
def run_all_main (stdin_line : String) : MenuOutcome :=
  main_menu (strip stdin_line)

/-- `create_simple_fec_database` from `src/part_a_carbon_steel.py`
(lines 27-79): the simplified Fe-C TDB text. -/
def create_simple_fec_database : String :=
"
$ Simplified Fe-C database for educational use
$ Based on literature data

ELEMENT FE BLANK 0.0 0.0 0.0 !
ELEMENT C  BLANK 0.0 0.0 0.0 !
ELEMENT VA BLANK 0.0 0.0 0.0 !

FUNCTION GHSERFE 298.15
    +1225.7+124.134*T-23.5143*T*LN(T)-0.00439752*T**2-5.8927E-8*T**3
    +77359*T**(-1); 1811.0 Y
    -25383.581+299.31255*T-46.0*T*LN(T)+2.29603E+31*T**(-9); 6000.0 N !

FUNCTION GHSERCC 298.15
    -17368.441+170.73*T-24.3*T*LN(T)-0.00437791*T**2+1.2116E-7*T**3
    -2.6434E+5*T**(-1); 6000.0 N !

TYPE_DEFINITION % SEQ * !
DEFINE_SYSTEM_DEFAULT ELEMENT 2 !
DEFAULT_COMMAND DEFINE_SYSTEM_ELEMENT VA !

PHASE LIQUID:L % 1 1.0 !
CONSTITUENT LIQUID:L : FE,C : !
PARAMETER G(LIQUID,FE;0) 298.15 +GHSERFE+12040.17-6.55843*T; 6000.0 N !
PARAMETER G(LIQUID,C;0) 298.15 +GHSERCC+25000-10*T; 6000.0 N !
PARAMETER G(LIQUID,FE,C;0) 298.15 -124320+28.5*T; 6000.0 N !

PHASE BCC_A2 % 2 1 3 !
CONSTITUENT BCC_A2 : FE : C,VA : !
PARAMETER G(BCC_A2,FE:VA;0) 298.15 +GHSERFE; 6000.0 N !
PARAMETER G(BCC_A2,FE:C;0) 298.15 +GHSERFE+GHSERCC+80000-40*T; 6000.0 N !

PHASE FCC_A1 % 2 1 1 !
CONSTITUENT FCC_A1 : FE : C,VA : !
PARAMETER G(FCC_A1,FE:VA;0) 298.15 +GHSERFE-1462.4+8.282*T-1.15*T*LN(T)+6.4E-4*T**2; 6000.0 N !
PARAMETER G(FCC_A1,FE:C;0) 298.15 +GHSERFE+GHSERCC+77207-15.877*T; 6000.0 N !
PARAMETER G(FCC_A1,FE:C,VA;0) 298.15 +40000; 6000.0 N !

PHASE CEMENTITE % 2 3 1 !
CONSTITUENT CEMENTITE : FE : C : !
PARAMETER G(CEMENTITE,FE:C;0) 298.15
    +3*GHSERFE+GHSERCC+13500; 6000.0 N !

PHASE GRAPHITE % 1 1.0 !
CONSTITUENT GRAPHITE : C : !
PARAMETER G(GRAPHITE,C;0) 298.15 +GHSERCC; 6000.0 N !
"

/-- `create_fecrc_database` from `src/part_b_stainless_steel.py`
(lines 20-93): the simplified Fe-Cr-C TDB text. -/
def create_fecrc_database : String :=
"
$ Simplified Fe-Cr-C database for Type 410 stainless steel
$ For educational purposes only

ELEMENT FE BLANK 0.0 0.0 0.0 !
ELEMENT CR BLANK 0.0 0.0 0.0 !
ELEMENT C  BLANK 0.0 0.0 0.0 !
ELEMENT VA BLANK 0.0 0.0 0.0 !

FUNCTION GHSERFE 298.15
    +1225.7+124.134*T-23.5143*T*LN(T)-0.00439752*T**2-5.8927E-8*T**3
    +77359*T**(-1); 1811.0 Y
    -25383.581+299.31255*T-46.0*T*LN(T)+2.29603E+31*T**(-9); 6000.0 N !

FUNCTION GHSERCR 298.15
    -8856.94+157.48*T-26.908*T*LN(T)+0.00189435*T**2-1.47721E-6*T**3
    +139250*T**(-1); 2180.0 Y
    -34869.344+344.18*T-50.0*T*LN(T)-2.88526E+32*T**(-9); 6000.0 N !

FUNCTION GHSERCC 298.15
    -17368.441+170.73*T-24.3*T*LN(T)-0.00437791*T**2+1.2116E-7*T**3
    -2.6434E+5*T**(-1); 6000.0 N !

TYPE_DEFINITION % SEQ * !
DEFINE_SYSTEM_DEFAULT ELEMENT 2 !
DEFAULT_COMMAND DEFINE_SYSTEM_ELEMENT VA !

PHASE LIQUID:L % 1 1.0 !
CONSTITUENT LIQUID:L : FE,CR,C : !
PARAMETER G(LIQUID,FE;0) 298.15 +GHSERFE+12040.17-6.55843*T; 6000.0 N !
PARAMETER G(LIQUID,CR;0) 298.15 +GHSERCR+24339.955-11.420225*T; 6000.0 N !
PARAMETER G(LIQUID,C;0) 298.15 +GHSERCC+25000-10*T; 6000.0 N !

PHASE BCC_A2 % 2 1 3 !
CONSTITUENT BCC_A2 : FE,CR : C,VA : !
PARAMETER G(BCC_A2,FE:VA;0) 298.15 +GHSERFE; 6000.0 N !
PARAMETER G(BCC_A2,CR:VA;0) 298.15 +GHSERCR; 6000.0 N !
PARAMETER G(BCC_A2,FE:C;0) 298.15 +GHSERFE+GHSERCC+80000-40*T; 6000.0 N !
PARAMETER G(BCC_A2,CR:C;0) 298.15 +GHSERCR+GHSERCC+100000-50*T; 6000.0 N !
PARAMETER G(BCC_A2,FE,CR:VA;0) 298.15 +20500-9.68*T; 6000.0 N !

PHASE FCC_A1 % 2 1 1 !
CONSTITUENT FCC_A1 : FE,CR : C,VA : !
PARAMETER G(FCC_A1,FE:VA;0) 298.15 +GHSERFE-1462.4+8.282*T-1.15*T*LN(T)+6.4E-4*T**2; 6000.0 N !
PARAMETER G(FCC_A1,CR:VA;0) 298.15 +GHSERCR+7284+0.163*T; 6000.0 N !
PARAMETER G(FCC_A1,FE:C;0) 298.15 +GHSERFE+GHSERCC+77207-15.877*T; 6000.0 N !
PARAMETER G(FCC_A1,CR:C;0) 298.15 +GHSERCR+GHSERCC+70000-20*T; 6000.0 N !

PHASE CEMENTITE % 2 3 1 !
CONSTITUENT CEMENTITE : FE,CR : C : !
PARAMETER G(CEMENTITE,FE:C;0) 298.15 +3*GHSERFE+GHSERCC+13500; 6000.0 N !
PARAMETER G(CEMENTITE,CR:C;0) 298.15 +3*GHSERCR+GHSERCC+20000; 6000.0 N !

PHASE M23C6 % 2 23 6 !
CONSTITUENT M23C6 : CR,FE : C : !
PARAMETER G(M23C6,CR:C;0) 298.15 +23*GHSERCR+6*GHSERCC-521983+3622.24*T-620.965*T*LN(T)-0.126431*T**2; 6000.0 N !
PARAMETER G(M23C6,FE:C;0) 298.15 +23*GHSERFE+6*GHSERCC-300000; 6000.0 N !

PHASE M7C3 % 2 7 3 !
CONSTITUENT M7C3 : CR,FE : C : !
PARAMETER G(M7C3,CR:C;0) 298.15 +7*GHSERCR+3*GHSERCC-201690+1103.128*T-190.177*T*LN(T)-0.0578207*T**2; 6000.0 N !
PARAMETER G(M7C3,FE:C;0) 298.15 +7*GHSERFE+3*GHSERCC-150000; 6000.0 N !

PHASE M3C % 2 3 1 !
CONSTITUENT M3C : CR,FE : C : !
PARAMETER G(M3C,CR:C;0) 298.15 +3*GHSERCR+GHSERCC-100000+40*T; 6000.0 N !
PARAMETER G(M3C,FE:C;0) 298.15 +3*GHSERFE+GHSERCC+13500; 6000.0 N !
"

/-- Observable effect of one database-loading call: the database file's
content after the call, the loaded database (modelled by the text that was
parsed), and the list of file writes performed. -/
structure LoadResult where
  fs : Option String
  db : String
  writes : List String

/-- `load_database` from `src/part_a_carbon_steel.py` (lines 82-108): if the
file `fe_c.tdb` exists it is loaded as-is; otherwise the simplified database
text is written to it once and then loaded.  The file system is modelled by
the optional content of that one file. -/
def load_database (fs0 : Option String) : LoadResult :=
  match fs0 with
  | some content => { fs := some content, db := content, writes := [] }
  | none =>
      { fs := some create_simple_fec_database,
        db := create_simple_fec_database,
        writes := [create_simple_fec_database] }

/-- `load_fecrc_database` from `src/part_b_stainless_steel.py`
(lines 96-121): same policy for the file `fe_cr_c.tdb`. -/
def load_fecrc_database (fs0 : Option String) : LoadResult :=
  match fs0 with
  | some content => { fs := some content, db := content, writes := [] }
  | none =>
      { fs := some create_fecrc_database,
        db := create_fecrc_database,
        writes := [create_fecrc_database] }

end Thermocalc

namespace Thermocalc

/-- C1: for `left ≠ right`, `lever_rule` returns the pair
`(fraction_left, fraction_right)` with
`fraction_right = (overall - left) / (right - left)` and
`fraction_left = 1 - fraction_right`. -/
theorem lever_rule_formula (overall left right : ℚ) (h : left ≠ right) :
    lever_rule overall left right =
      (1 - (overall - left) / (right - left), (overall - left) / (right - left)) := by
  unfold lever_rule
  rw [if_neg (fun hrl => h hrl.symm)]

/-- Witness for C1 at `(overall, left, right) = (1, 0, 2)`. -/
theorem lever_rule_formula_witness :
    lever_rule 1 0 2 = (1 - (1 - 0) / (2 - 0), (1 - 0) / (2 - 0)) :=
  lever_rule_formula 1 0 2 (by norm_num)

/-- C2: for `left < overall < right` the two fractions returned by
`lever_rule` sum to `1` and each lies in `[0, 1]`. -/
theorem lever_rule_partition (overall left right : ℚ)
    (h1 : left < overall) (h2 : overall < right) :
    (lever_rule overall left right).1 + (lever_rule overall left right).2 = 1 ∧
    0 ≤ (lever_rule overall left right).1 ∧ (lever_rule overall left right).1 ≤ 1 ∧
    0 ≤ (lever_rule overall left right).2 ∧ (lever_rule overall left right).2 ≤ 1 := by
  have hlr : left < right := lt_trans h1 h2
  have hne : left ≠ right := ne_of_lt hlr
  rw [lever_rule_formula overall left right hne]
  have hd : (0 : ℚ) < right - left := by linarith
  have hfr0 : 0 ≤ (overall - left) / (right - left) :=
    div_nonneg (by linarith) (le_of_lt hd)
  have hfr1 : (overall - left) / (right - left) ≤ 1 :=
    (div_le_one hd).mpr (by linarith)
  refine ⟨by ring, by linarith, by linarith, hfr0, hfr1⟩

/-- Witness for C2 at `(overall, left, right) = (1, 0, 2)`. -/
theorem lever_rule_partition_witness :
    (lever_rule 1 0 2).1 + (lever_rule 1 0 2).2 = 1 ∧
    0 ≤ (lever_rule 1 0 2).1 ∧ (lever_rule 1 0 2).1 ≤ 1 ∧
    0 ≤ (lever_rule 1 0 2).2 ∧ (lever_rule 1 0 2).2 ≤ 1 :=
  lever_rule_partition 1 0 2 (by norm_num) (by norm_num)

/-- C3: when the two bounding compositions coincide `lever_rule` returns
exactly `(0, 0)` without dividing, and in the other branch the divisor
`right - left` is nonzero, the result being given by the division formula. -/
theorem lever_rule_degenerate (overall left right : ℚ) :
    (right = left → lever_rule overall left right = (0, 0)) ∧
    (right ≠ left →
      right - left ≠ 0 ∧
      lever_rule overall left right =
        (1 - (overall - left) / (right - left), (overall - left) / (right - left))) := by
  constructor
  · intro heq
    unfold lever_rule
    rw [if_pos heq]
  · intro hne
    refine ⟨sub_ne_zero.mpr hne, ?_⟩
    unfold lever_rule
    rw [if_neg hne]

/-- Witness for C3: degenerate branch at `(5, 3, 3)` and division branch at
`(1, 0, 2)`. -/
theorem lever_rule_degenerate_witness :
    lever_rule 5 3 3 = (0, 0) ∧ ((2 : ℚ) - 0 ≠ 0 ∧
      lever_rule 1 0 2 = (1 - (1 - 0) / (2 - 0), (1 - 0) / (2 - 0))) :=
  ⟨(lever_rule_degenerate 5 3 3).1 rfl,
   (lever_rule_degenerate 1 0 2).2 (by norm_num)⟩

/-- C9: `lever_rule` does no range validation: when `left ≠ right` and the
overall composition lies strictly outside the interval bounded by `left` and
`right`, the two results still sum to `1` but exactly one is negative while
the other exceeds `1`; the function is total, so no error is raised. -/
theorem lever_rule_extrapolates (overall left right : ℚ) (hne : left ≠ right)
    (hout : overall < min left right ∨ max left right < overall) :
    (lever_rule overall left right).1 + (lever_rule overall left right).2 = 1 ∧
    (((lever_rule overall left right).1 < 0 ∧ 1 < (lever_rule overall left right).2) ∨
     ((lever_rule overall left right).2 < 0 ∧ 1 < (lever_rule overall left right).1)) := by
  rw [lever_rule_formula overall left right hne]
  rcases lt_or_gt_of_ne hne with hlr | hrl
  · have hd : (0 : ℚ) < right - left := by linarith
    rcases hout with hlow | hhigh
    · rw [min_eq_left (le_of_lt hlr)] at hlow
      have hfr : (overall - left) / (right - left) < 0 :=
        div_neg_of_neg_of_pos (by linarith) hd
      exact ⟨by ring, Or.inr ⟨hfr, by linarith⟩⟩
    · rw [max_eq_right (le_of_lt hlr)] at hhigh
      have hfr : 1 < (overall - left) / (right - left) :=
        (one_lt_div hd).mpr (by linarith)
      exact ⟨by ring, Or.inl ⟨by linarith, hfr⟩⟩
  · have hrew : (overall - left) / (right - left) = (left - overall) / (left - right) := by
      rw [div_eq_div_iff (by intro h0; apply hne; linarith [sub_eq_zero.mp h0])
        (by intro h0; apply hne; linarith [sub_eq_zero.mp h0])]
      ring
    have hd : (0 : ℚ) < left - right := by linarith
    rcases hout with hlow | hhigh
    · rw [min_eq_right (le_of_lt hrl)] at hlow
      have hfr : 1 < (overall - left) / (right - left) := by
        rw [hrew]
        exact (one_lt_div hd).mpr (by linarith)
      exact ⟨by ring, Or.inl ⟨by linarith, hfr⟩⟩
    · rw [max_eq_left (le_of_lt hrl)] at hhigh
      have hfr : (overall - left) / (right - left) < 0 := by
        rw [hrew]
        exact div_neg_of_neg_of_pos (by linarith) hd
      exact ⟨by ring, Or.inr ⟨hfr, by linarith⟩⟩

/-- Witness for C9 at `(overall, left, right) = (3, 0, 2)` (overall above the
interval). -/
theorem lever_rule_extrapolates_witness :
    (lever_rule 3 0 2).1 + (lever_rule 3 0 2).2 = 1 ∧
    (((lever_rule 3 0 2).1 < 0 ∧ 1 < (lever_rule 3 0 2).2) ∨
     ((lever_rule 3 0 2).2 < 0 ∧ 1 < (lever_rule 3 0 2).1)) :=
  lever_rule_extrapolates 3 0 2 (by norm_num) (by norm_num)

end Thermocalc

namespace Thermocalc

/-- Sum of a list after dividing every element by `t` equals the sum divided
by `t`. -/
theorem sum_map_div (l : List ℚ) (t : ℚ) :
    (l.map fun x => x / t).sum = l.sum / t := by
  induction l with
  | nil => simp
  | cons a l ih => simp [ih, add_div]

/-- Closed form of `wt_to_mole_fraction` as a single map over the input. -/
theorem wt_to_mole_fraction_eq {α : Type} (l : List (α × ℚ)) (M : α → ℚ) :
    wt_to_mole_fraction l M =
      l.map fun p => (p.1, p.2 / M p.1 / total_moles l M) := by
  unfold wt_to_mole_fraction total_moles
  simp [List.map_map, Function.comp_def]

/-- Closed form of `mole_to_wt_fraction` as a single map over the input. -/
theorem mole_to_wt_fraction_eq {α : Type} (l : List (α × ℚ)) (M : α → ℚ) :
    mole_to_wt_fraction l M =
      l.map fun p => (p.1, p.2 * M p.1 / total_weight l M) := by
  unfold mole_to_wt_fraction total_weight
  simp [List.map_map, Function.comp_def]

/-- With positive values and positive molar masses on a nonempty composition,
the total moles are positive. -/
theorem total_moles_pos {α : Type} (l : List (α × ℚ)) (M : α → ℚ)
    (hl : l ≠ []) (hv : ∀ p ∈ l, 0 < p.2) (hM : ∀ p ∈ l, 0 < M p.1) :
    0 < total_moles l M := by
  apply List.sum_pos
  · intro x hx
    obtain ⟨p, hp, rfl⟩ := List.mem_map.mp hx
    exact div_pos (hv p hp) (hM p hp)
  · simpa using hl

/-- With positive values and positive molar masses on a nonempty composition,
the total weight is positive. -/
theorem total_weight_pos {α : Type} (l : List (α × ℚ)) (M : α → ℚ)
    (hl : l ≠ []) (hv : ∀ p ∈ l, 0 < p.2) (hM : ∀ p ∈ l, 0 < M p.1) :
    0 < total_weight l M := by
  apply List.sum_pos
  · intro x hx
    obtain ⟨p, hp, rfl⟩ := List.mem_map.mp hx
    exact mul_pos (hv p hp) (hM p hp)
  · simpa using hl

/-- C10: on a nonempty dictionary with positive values and positive molar
masses, both `wt_to_mole_fraction` and `mole_to_wt_fraction` keep the key
list unchanged and return values summing to `1`, whether or not the input
values sum to `1`. -/
theorem conversion_same_keys_sum_one {α : Type} (l : List (α × ℚ)) (M : α → ℚ)
    (hl : l ≠ []) (hv : ∀ p ∈ l, 0 < p.2) (hM : ∀ p ∈ l, 0 < M p.1) :
    (wt_to_mole_fraction l M).map Prod.fst = l.map Prod.fst ∧
    ((wt_to_mole_fraction l M).map Prod.snd).sum = 1 ∧
    (mole_to_wt_fraction l M).map Prod.fst = l.map Prod.fst ∧
    ((mole_to_wt_fraction l M).map Prod.snd).sum = 1 := by
  have hTm := total_moles_pos l M hl hv hM
  have hTw := total_weight_pos l M hl hv hM
  refine ⟨?_, ?_, ?_, ?_⟩
  · rw [wt_to_mole_fraction_eq]
    simp [List.map_map, Function.comp_def]
  · rw [wt_to_mole_fraction_eq]
    have hmm : (l.map fun p => (p.1, p.2 / M p.1 / total_moles l M)).map Prod.snd
        = (l.map fun p => p.2 / M p.1).map fun x => x / total_moles l M := by
      simp [List.map_map, Function.comp_def]
    rw [hmm, sum_map_div]
    exact div_self (ne_of_gt hTm)
  · rw [mole_to_wt_fraction_eq]
    simp [List.map_map, Function.comp_def]
  · rw [mole_to_wt_fraction_eq]
    have hmm : (l.map fun p => (p.1, p.2 * M p.1 / total_weight l M)).map Prod.snd
        = (l.map fun p => p.2 * M p.1).map fun x => x / total_weight l M := by
      simp [List.map_map, Function.comp_def]
    rw [hmm, sum_map_div]
    exact div_self (ne_of_gt hTw)

/-- Witness for C10 on the dictionary `[("FE", 1/2), ("C", 1/2)]` with the
molar masses of iron and carbon. -/
theorem conversion_same_keys_sum_one_witness :
    ((wt_to_mole_fraction [("FE", (1 : ℚ)/2), ("C", 1/2)]
        (fun s => if s = "FE" then 55845/1000 else 12011/1000)).map Prod.fst
      = [("FE", (1 : ℚ)/2), ("C", 1/2)].map Prod.fst) ∧
    (((wt_to_mole_fraction [("FE", (1 : ℚ)/2), ("C", 1/2)]
        (fun s => if s = "FE" then 55845/1000 else 12011/1000)).map Prod.snd).sum = 1) ∧
    ((mole_to_wt_fraction [("FE", (1 : ℚ)/2), ("C", 1/2)]
        (fun s => if s = "FE" then 55845/1000 else 12011/1000)).map Prod.fst
      = [("FE", (1 : ℚ)/2), ("C", 1/2)].map Prod.fst) ∧
    (((mole_to_wt_fraction [("FE", (1 : ℚ)/2), ("C", 1/2)]
        (fun s => if s = "FE" then 55845/1000 else 12011/1000)).map Prod.snd).sum = 1) :=
  conversion_same_keys_sum_one [("FE", (1 : ℚ)/2), ("C", 1/2)]
    (fun s => if s = "FE" then 55845/1000 else 12011/1000)
    (by simp) (by simp) (by simp)

/-- C4: converting a nonempty composition of positive weight fractions
(summing to `1`) to mole fractions and back with the same positive molar
masses reproduces the original weight fractions exactly. -/
theorem wt_mole_roundtrip {α : Type} (wt : List (α × ℚ)) (M : α → ℚ)
    (hl : wt ≠ []) (hv : ∀ p ∈ wt, 0 < p.2) (hM : ∀ p ∈ wt, 0 < M p.1)
    (hsum : (wt.map Prod.snd).sum = 1) :
    mole_to_wt_fraction (wt_to_mole_fraction wt M) M = wt := by
  have hTm := total_moles_pos wt M hl hv hM
  have hT0 : total_moles wt M ≠ 0 := ne_of_gt hTm
  have hX := wt_to_mole_fraction_eq wt M
  have hTw : total_weight (wt_to_mole_fraction wt M) M = 1 / total_moles wt M := by
    unfold total_weight
    rw [hX, List.map_map]
    have hconst : wt.map ((fun p => p.2 * M p.1) ∘
          fun p => (p.1, p.2 / M p.1 / total_moles wt M))
        = wt.map fun p => p.2 / total_moles wt M := by
      apply List.map_congr_left
      intro p hp
      have hMp : M p.1 ≠ 0 := ne_of_gt (hM p hp)
      simp only [Function.comp]
      field_simp
      ring
    rw [hconst]
    have hsplit : (wt.map fun p => p.2 / total_moles wt M)
        = (wt.map Prod.snd).map fun x => x / total_moles wt M := by
      simp [List.map_map, Function.comp_def]
    rw [hsplit, sum_map_div, hsum]
  rw [mole_to_wt_fraction_eq, hTw, hX, List.map_map]
  refine Eq.trans (List.map_congr_left ?_) (List.map_id wt)
  intro p hp
  have hMp : M p.1 ≠ 0 := ne_of_gt (hM p hp)
  simp only [Function.comp, id]
  have h2 : p.2 / M p.1 / total_moles wt M * M p.1 / (1 / total_moles wt M) = p.2 := by
    field_simp
    ring
  rw [h2]

/-- Witness for C4 on the dictionary `[("FE", 1/2), ("C", 1/2)]` with the
molar masses of iron and carbon. -/
theorem wt_mole_roundtrip_witness :
    mole_to_wt_fraction
        (wt_to_mole_fraction [("FE", (1 : ℚ)/2), ("C", 1/2)]
          (fun s => if s = "FE" then 55845/1000 else 12011/1000))
        (fun s => if s = "FE" then 55845/1000 else 12011/1000)
      = [("FE", (1 : ℚ)/2), ("C", 1/2)] :=
  wt_mole_roundtrip [("FE", (1 : ℚ)/2), ("C", 1/2)]
    (fun s => if s = "FE" then 55845/1000 else 12011/1000)
    (by simp) (by simp) (by simp) (by norm_num)

end Thermocalc

namespace Thermocalc

/-- The sum of squared residuals is nonnegative. -/
theorem sse_nonneg (data : List (ℚ × ℚ)) (a b c : ℚ) : 0 ≤ sse data a b c := by
  apply List.sum_nonneg
  intro x hx
  obtain ⟨p, hp, rfl⟩ := List.mem_map.mp hx
  positivity

/-- A list of nonnegative rationals summing to zero is all zeros. -/
theorem sum_eq_zero_all_zero (l : List ℚ) (h0 : ∀ x ∈ l, 0 ≤ x) (hs : l.sum = 0) :
    ∀ x ∈ l, x = 0 := by
  induction l with
  | nil => simp
  | cons a l ih =>
    have ha := h0 a (List.mem_cons_self a l)
    have hl : ∀ x ∈ l, 0 ≤ x := fun x hx => h0 x (List.mem_cons_of_mem a hx)
    have hsum : 0 ≤ l.sum := List.sum_nonneg hl
    rw [List.sum_cons] at hs
    have ha0 : a = 0 := by linarith
    have hl0 : l.sum = 0 := by linarith
    intro x hx
    rcases List.mem_cons.mp hx with rfl | hx
    · exact ha0
    · exact ih hl hl0 x hx

/-- On data sampled from `y = x²` the triple `(1, 0, 0)` has zero residual. -/
theorem sse_exact_square (data : List (ℚ × ℚ)) (hdata : ∀ p ∈ data, p.2 = p.1 ^ 2) :
    sse data 1 0 0 = 0 := by
  unfold sse
  have hzl : data.map (fun p => (quadratic p.1 1 0 0 - p.2) ^ 2)
      = data.map fun _ => (0 : ℚ) := by
    apply List.map_congr_left
    intro p hp
    rw [hdata p hp]
    unfold quadratic
    ring
  rw [hzl]
  simp

/-- Zero total squared residual forces every data point onto the model. -/
theorem sse_zero_residual (data : List (ℚ × ℚ)) (a b c : ℚ)
    (hz : sse data a b c = 0) : ∀ p ∈ data, quadratic p.1 a b c = p.2 := by
  intro p hp
  have hmem : (quadratic p.1 a b c - p.2) ^ 2
      ∈ data.map fun q => (quadratic q.1 a b c - q.2) ^ 2 :=
    List.mem_map_of_mem _ hp
  have h0 : ∀ x ∈ data.map fun q => (quadratic q.1 a b c - q.2) ^ 2, 0 ≤ x := by
    intro x hx
    obtain ⟨q, hq, rfl⟩ := List.mem_map.mp hx
    positivity
  have hsq := sum_eq_zero_all_zero _ h0 hz _ hmem
  have hd : quadratic p.1 a b c - p.2 = 0 := by
    exact pow_eq_zero_iff (n := 2) (by norm_num) |>.mp hsq
  linarith

/-- A quadratic polynomial vanishing at three distinct points is zero. -/
theorem quad_three_roots (A B C x1 x2 x3 : ℚ)
    (h12 : x1 ≠ x2) (h13 : x1 ≠ x3) (h23 : x2 ≠ x3)
    (e1 : A * x1 ^ 2 + B * x1 + C = 0)
    (e2 : A * x2 ^ 2 + B * x2 + C = 0)
    (e3 : A * x3 ^ 2 + B * x3 + C = 0) : A = 0 ∧ B = 0 ∧ C = 0 := by
  have d12 : x1 - x2 ≠ 0 := sub_ne_zero.mpr h12
  have d23 : x2 - x3 ≠ 0 := sub_ne_zero.mpr h23
  have g12 : A * (x1 + x2) + B = 0 := by
    have h : (x1 - x2) * (A * (x1 + x2) + B) = 0 := by linear_combination e1 - e2
    rcases mul_eq_zero.mp h with h | h
    · exact absurd h d12
    · exact h
  have g13 : A * (x1 + x3) + B = 0 := by
    have h : (x1 - x3) * (A * (x1 + x3) + B) = 0 := by linear_combination e1 - e3
    rcases mul_eq_zero.mp h with h | h
    · exact absurd h (sub_ne_zero.mpr h13)
    · exact h
  have hA : A = 0 := by
    have h : A * (x2 - x3) = 0 := by linear_combination g12 - g13
    rcases mul_eq_zero.mp h with h | h
    · exact h
    · exact absurd h d23
  have hB : B = 0 := by linear_combination g12 - (x1 + x2) * hA
  have hC : C = 0 := by linear_combination e1 - x1 ^ 2 * hA - x1 * hB
  exact ⟨hA, hB, hC⟩

/-- C5: on data sampled from `y = x²` containing at least three distinct
x-values, `(1, 0, 0)` is a least-squares quadratic fit, and it is the only
one: any coefficient triple satisfying the least-squares contract of
`quadratic_fit` equals `(1, 0, 0)` exactly. -/
theorem quadratic_fit_recovers_square (data : List (ℚ × ℚ)) (x1 x2 x3 : ℚ)
    (hdata : ∀ p ∈ data, p.2 = p.1 ^ 2)
    (h1 : x1 ∈ data.map Prod.fst) (h2 : x2 ∈ data.map Prod.fst)
    (h3 : x3 ∈ data.map Prod.fst)
    (h12 : x1 ≠ x2) (h13 : x1 ≠ x3) (h23 : x2 ≠ x3) :
    IsQuadraticFit data (1, 0, 0) ∧
    ∀ a b c : ℚ, IsQuadraticFit data (a, b, c) → (a, b, c) = ((1 : ℚ), 0, 0) := by
  have hzero := sse_exact_square data hdata
  constructor
  · intro a b c
    show sse data 1 0 0 ≤ sse data a b c
    rw [hzero]
    exact sse_nonneg data a b c
  · intro a b c hfit
    have hle : sse data a b c ≤ sse data 1 0 0 := hfit 1 0 0
    have hz : sse data a b c = 0 :=
      le_antisymm (by rw [← hzero]; exact hle) (sse_nonneg data a b c)
    obtain ⟨p1, hp1, hx1⟩ := List.mem_map.mp h1
    obtain ⟨p2, hp2, hx2⟩ := List.mem_map.mp h2
    obtain ⟨p3, hp3, hx3⟩ := List.mem_map.mp h3
    have r1 : quadratic x1 a b c = x1 ^ 2 := by
      have hr := sse_zero_residual data a b c hz p1 hp1
      rw [hdata p1 hp1] at hr
      rw [← hx1]
      exact hr
    have r2 : quadratic x2 a b c = x2 ^ 2 := by
      have hr := sse_zero_residual data a b c hz p2 hp2
      rw [hdata p2 hp2] at hr
      rw [← hx2]
      exact hr
    have r3 : quadratic x3 a b c = x3 ^ 2 := by
      have hr := sse_zero_residual data a b c hz p3 hp3
      rw [hdata p3 hp3] at hr
      rw [← hx3]
      exact hr
    unfold quadratic at r1 r2 r3
    obtain ⟨hA, hB, hC⟩ :=
      quad_three_roots (a - 1) b c x1 x2 x3 h12 h13 h23
        (by linear_combination r1) (by linear_combination r2) (by linear_combination r3)
    have ha : a = 1 := by linarith
    rw [ha, hB, hC]

/-- Witness for C5 on the data `[(0, 0), (1, 1), (2, 4)]` sampled from
`y = x²`. -/
theorem quadratic_fit_recovers_square_witness :
    IsQuadraticFit [((0 : ℚ), (0 : ℚ)), (1, 1), (2, 4)] (1, 0, 0) ∧
    ∀ a b c : ℚ, IsQuadraticFit [((0 : ℚ), (0 : ℚ)), (1, 1), (2, 4)] (a, b, c) →
      (a, b, c) = ((1 : ℚ), 0, 0) :=
  quadratic_fit_recovers_square [((0 : ℚ), (0 : ℚ)), (1, 1), (2, 4)] 0 1 2
    (by norm_num) (by simp) (by simp) (by simp)
    (by norm_num) (by norm_num) (by norm_num)

end Thermocalc

namespace Thermocalc

/-- Counterexample to C6 as stated: in the source the try blocks of the two
table loops wrap more than the solver call, so a failure raised outside the
solver invocation is caught after all.  Concretely, with a solver that
succeeds and a result extraction that raises, both `b1_row` and `b2_row`
record their sentinel instead of letting the failure terminate the script;
and the inner bare except of the ternary loop swallows a failing per-phase
extraction silently, yielding the phase name unchanged. -/
theorem nonsolver_failures_are_caught :
    b1_row (fun _ _ _ => Except.ok ([("BCC_A2", 1)] : SolverResult))
        (fun _ => (Except.error "squeeze failed" : Except String SolverResult))
        12.5 1000 0 = ⟨1000, 0, "ERROR"⟩ ∧
    b2_row (fun _ _ _ => Except.ok ([("BCC_A2", 1)] : SolverResult))
        (fun _ => (Except.error "squeeze failed" : Except String SolverResult))
        (fun _ _ => Except.ok ()) 1500 "Fe-15.0Cr-0.01C" 15 0.01
        = ⟨"Fe-15.0Cr-0.01C", "Calculation error - use phase diagram", 0⟩ ∧
    b2_inner_xvals (fun _ _ => (Except.error "isel failed" : Except String Unit))
        ([("BCC_A2", 1)] : SolverResult) 0 "BCC_A2" = "BCC_A2" :=
  ⟨rfl, rfl, rfl⟩

/-- C6 (amended): in the B1 and B2 table loops, any exception raised inside
the surrounding try block — by the solver call or by the subsequent result
extraction — is caught and recorded as the sentinel string of that table
(`ERROR`, resp. `Calculation error - use phase diagram`) in the
corresponding row; in the ternary loop an inner bare except additionally
swallows per-phase extraction failures silently, leaving the appended value
unchanged; the tables are always produced in full, so nothing propagates
from the loops; the A1 solver call, outside any try block, propagates its
error. -/
theorem solver_errors_become_sentinels {ε : Type}
    (solver : ℚ → ℚ → ℚ → Except String ε)
    (extract : ε → Except String SolverResult)
    (xvals : ε → ℕ → Except String Unit) :
    (∀ cr T c e,
        solver T (mole_fracs_cr_c cr c).1 (mole_fracs_cr_c cr c).2 = Except.error e →
        b1_row solver extract cr T c = ⟨T, c, "ERROR"⟩) ∧
    (∀ cr T c eq e,
        solver T (mole_fracs_cr_c cr c).1 (mole_fracs_cr_c cr c).2 = Except.ok eq →
        extract eq = Except.error e →
        b1_row solver extract cr T c = ⟨T, c, "ERROR"⟩) ∧
    (∀ temperature name cr c e,
        solver temperature (mole_fracs_cr_c cr c).1 (mole_fracs_cr_c cr c).2
            = Except.error e →
        b2_row solver extract xvals temperature name cr c
            = ⟨name, "Calculation error - use phase diagram", 0⟩) ∧
    (∀ temperature name cr c eq e,
        solver temperature (mole_fracs_cr_c cr c).1 (mole_fracs_cr_c cr c).2
            = Except.ok eq →
        extract eq = Except.error e →
        b2_row solver extract xvals temperature name cr c
            = ⟨name, "Calculation error - use phase diagram", 0⟩) ∧
    (∀ eq i phase_name e, xvals eq i = Except.error e →
        b2_inner_xvals xvals eq i phase_name = phase_name) ∧
    (∀ cr, (plot_binary_at_fixed_cr solver extract cr).length = 121) ∧
    (∀ temperature, (plot_ternary_diagram solver extract xvals temperature).length = 4) ∧
    (∀ e, plot_phase_diagram_a1 (Except.error e) = Except.error e) := by
  refine ⟨?_, ?_, ?_, ?_, ?_, ?_, ?_, ?_⟩
  · intro cr T c e he
    simp only [b1_row]
    rw [he]
  · intro cr T c eq e h1 h2
    simp only [b1_row, h1]
    rw [h2]
  · intro temperature name cr c e he
    simp only [b2_row]
    rw [he]
  · intro temperature name cr c eq e h1 h2
    simp only [b2_row, h1]
    rw [h2]
  · intro eq i phase_name e he
    simp only [b2_inner_xvals]
    rw [he]
  · intro cr
    rfl
  · intro temperature
    rfl
  · intro e
    rfl

/-- Witness for the amended C6: a raising solver, a succeeding solver with a
raising extraction, a raising inner per-phase extraction, and the full table
lengths. -/
theorem solver_errors_become_sentinels_witness :
    b1_row (fun _ _ _ => (Except.error "fail" : Except String SolverResult))
        (fun r => Except.ok r) 12.5 1000 0 = ⟨1000, 0, "ERROR"⟩ ∧
    b1_row (fun _ _ _ => Except.ok ([("FCC_A1", 1)] : SolverResult))
        (fun _ => (Except.error "squeeze failed" : Except String SolverResult))
        12.5 1100 0.5 = ⟨1100, 0.5, "ERROR"⟩ ∧
    b2_row (fun _ _ _ => (Except.error "fail" : Except String SolverResult))
        (fun r => Except.ok r) (fun _ _ => Except.ok ()) 1500 "Fe-15.0Cr-0.70C" 15 0.70
        = ⟨"Fe-15.0Cr-0.70C", "Calculation error - use phase diagram", 0⟩ ∧
    b2_row (fun _ _ _ => Except.ok ([("FCC_A1", 1)] : SolverResult))
        (fun _ => (Except.error "squeeze failed" : Except String SolverResult))
        (fun _ _ => Except.ok ()) 1500 "Fe-20.0Cr-0.20C" 20 0.20
        = ⟨"Fe-20.0Cr-0.20C", "Calculation error - use phase diagram", 0⟩ ∧
    b2_inner_xvals (fun _ _ => (Except.error "isel failed" : Except String Unit))
        ([] : SolverResult) 1 "FCC_A1" = "FCC_A1" ∧
    (plot_binary_at_fixed_cr (fun _ _ _ => (Except.error "fail" : Except String SolverResult))
        (fun r => Except.ok r) 12.5).length = 121 ∧
    (plot_ternary_diagram (fun _ _ _ => (Except.error "fail" : Except String SolverResult))
        (fun r => Except.ok r) (fun _ _ => Except.ok ()) 1500).length = 4 ∧
    plot_phase_diagram_a1 (Except.error "fail") = Except.error "fail" :=
  ⟨(solver_errors_become_sentinels (fun _ _ _ => (Except.error "fail" : Except String SolverResult))
      (fun r => Except.ok r) (fun _ _ => Except.ok ())).1 12.5 1000 0 "fail" rfl,
   (solver_errors_become_sentinels (fun _ _ _ => Except.ok ([("FCC_A1", 1)] : SolverResult))
      (fun _ => (Except.error "squeeze failed" : Except String SolverResult))
      (fun _ _ => Except.ok ())).2.1 12.5 1100 0.5 [("FCC_A1", 1)] "squeeze failed" rfl rfl,
   (solver_errors_become_sentinels (fun _ _ _ => (Except.error "fail" : Except String SolverResult))
      (fun r => Except.ok r) (fun _ _ => Except.ok ())).2.2.1
      1500 "Fe-15.0Cr-0.70C" 15 0.70 "fail" rfl,
   (solver_errors_become_sentinels (fun _ _ _ => Except.ok ([("FCC_A1", 1)] : SolverResult))
      (fun _ => (Except.error "squeeze failed" : Except String SolverResult))
      (fun _ _ => Except.ok ())).2.2.2.1
      1500 "Fe-20.0Cr-0.20C" 20 0.20 [("FCC_A1", 1)] "squeeze failed" rfl rfl,
   (solver_errors_become_sentinels (fun _ _ _ => (Except.error "fail" : Except String SolverResult))
      (fun r => Except.ok r) (fun _ _ => (Except.error "isel failed" : Except String Unit))).2.2.2.2.1
      [] 1 "FCC_A1" "isel failed" rfl,
   (solver_errors_become_sentinels (fun _ _ _ => (Except.error "fail" : Except String SolverResult))
      (fun r => Except.ok r) (fun _ _ => Except.ok ())).2.2.2.2.2.1 12.5,
   (solver_errors_become_sentinels (fun _ _ _ => (Except.error "fail" : Except String SolverResult))
      (fun r => Except.ok r) (fun _ _ => Except.ok ())).2.2.2.2.2.2.1 1500,
   (solver_errors_become_sentinels (fun _ _ _ => (Except.error "fail" : Except String SolverResult))
      (fun r => Except.ok r) (fun _ _ => Except.ok ())).2.2.2.2.2.2.2 "fail"⟩

/-- C7: after the dependency check, `main` dispatches on the stripped stdin
line: `1` runs part A only, `2` runs part B only, `3` runs part A then
part B, `4` runs nothing and exits with status 0, and any other input runs
nothing and exits with a nonzero status. -/
theorem main_menu_dispatch :
    run_all_main "1" = ⟨[ScriptPart.partA], 0⟩ ∧
    run_all_main "2" = ⟨[ScriptPart.partB], 0⟩ ∧
    run_all_main "3" = ⟨[ScriptPart.partA, ScriptPart.partB], 0⟩ ∧
    run_all_main "4" = ⟨[], 0⟩ ∧
    ∀ s : String, strip s ≠ "1" → strip s ≠ "2" → strip s ≠ "3" → strip s ≠ "4" →
      (run_all_main s).parts_run = [] ∧ (run_all_main s).exit_code ≠ 0 := by
  refine ⟨rfl, rfl, rfl, rfl, ?_⟩
  intro s h1 h2 h3 h4
  unfold run_all_main main_menu
  rw [if_neg h1, if_neg h2, if_neg h3, if_neg h4]
  exact ⟨rfl, by norm_num⟩

/-- Witness for C7 on the invalid input `quit`. -/
theorem main_menu_dispatch_witness :
    (run_all_main "quit").parts_run = [] ∧ (run_all_main "quit").exit_code ≠ 0 :=
  main_menu_dispatch.2.2.2.2 "quit" (by decide) (by decide) (by decide) (by decide)

/-- C8: if the database file exists, both loaders return its content with no
write (the file is left unchanged); if it does not exist, each loader
performs exactly one write, of the database text it then loads, and the file
afterwards holds that text.  In both cases the loaded database is
returned. -/
theorem load_database_write_once (fs0 : Option String) :
    (∀ content, fs0 = some content →
        load_database fs0 = ⟨some content, content, []⟩ ∧
        load_fecrc_database fs0 = ⟨some content, content, []⟩) ∧
    (fs0 = none →
        load_database fs0
            = ⟨some create_simple_fec_database, create_simple_fec_database,
               [create_simple_fec_database]⟩ ∧
        (load_database fs0).writes.length = 1 ∧
        load_fecrc_database fs0
            = ⟨some create_fecrc_database, create_fecrc_database,
               [create_fecrc_database]⟩ ∧
        (load_fecrc_database fs0).writes.length = 1) := by
  constructor
  · rintro content rfl
    exact ⟨rfl, rfl⟩
  · rintro rfl
    exact ⟨rfl, rfl, rfl, rfl⟩

/-- Witness for C8 at an existing file with content `x` and at a missing
file. -/
theorem load_database_write_once_witness :
    (load_database (some "x") = ⟨some "x", "x", []⟩ ∧
     load_fecrc_database (some "x") = ⟨some "x", "x", []⟩) ∧
    (load_database none
        = ⟨some create_simple_fec_database, create_simple_fec_database,
           [create_simple_fec_database]⟩ ∧
     (load_database none).writes.length = 1 ∧
     load_fecrc_database none
        = ⟨some create_fecrc_database, create_fecrc_database,
           [create_fecrc_database]⟩ ∧
     (load_fecrc_database none).writes.length = 1) :=
  ⟨(load_database_write_once (some "x")).1 "x" rfl,
   (load_database_write_once none).2 rfl⟩

end Thermocalc
